import Mathlib

/-
Verification of the SpiderMonkey type-embedding example
(src/spider-monkey-integration/example_type_embedding.cpp).

The development shallowly embeds the parts of the C++ source that the
properties below are about:

* the native payload type `MyType` (a wrapped int64_t),
* runtime objects with a class id and an optional private slot,
* the installer state produced by installing a type (its class and its
  cached prototype object, compared by identity as in the source's
  check at line 260, where the robust toNumber compares the receiver
  against the cached prototype handle),
* the call adapters `wrapFunction` (source lines 309-321) and
  `wrapConstrainedMethod` (source lines 352-390), with the catch-all
  clause modelled by translating every native failure into a pending
  runtime exception plus a `false` return to the engine,
* the robust `toNumber` callback (source lines 239-276),
* `AdaptedMyType::finalize` (lines 138-146), `AdaptedMyType::construct`
  (lines 151-173) and `AdaptedMyType::toString` (lines 188-201),
  including executable models of the C library functions `atoll` and
  `std::to_string` that `construct` and `toString` rely on.

Machine integers are modelled as unbounded `Int`/`Nat`; the theorems
about the 64-bit round trip carry explicit range hypotheses so they
coincide with the int64_t behaviour of the source (where atoll on an
out-of-range string would be undefined behaviour anyway).
-/

namespace SpiderMonkeyEmbedding

/-- The adapted native type (source lines 41-43): a wrapper around an
int64_t value, modelled with an unbounded `Int`. -/
structure MyType where
  val : Int
deriving DecidableEq

/-- A runtime object: an identity (models pointer identity, used by the
prototype check `_proto == obj` at source line 260), the id of the
JSClass it was created with, and the private slot, which either holds a
native payload or is empty (`JS_GetPrivate` returning null). -/
structure JSObject where
  id : Nat
  classId : Nat
  slot : Option MyType
deriving DecidableEq

/-- The engine value type, restricted to the shapes the claims need.
`thisv().isObject()` distinguishes the `obj` constructor from the rest. -/
inductive JSValue where
  | undefined
  | boolean (b : Bool)
  | number (n : Int)
  | strVal (s : String)
  | obj (o : JSObject)
deriving DecidableEq

/-- Model of `JS::Value::isObject` used at source lines 245 and 359. -/
def JSValue.isObject : JSValue → Bool
  | .obj _ => true
  | _ => false

/-- The live state of one installed type: the class it registered and
the identity of its pinned prototype object.  `JS_InitClass` (source
lines 96-111) creates the prototype as an object of the class itself,
which is why the prototype passes the `instanceOf` check and needs the
separate identity check. -/
structure Installer where
  classId : Nat
  protoId : Nat
deriving DecidableEq

/-- Model of `AdaptedMyType::instanceOf` (source lines 120-123):
`JS_InstanceOf` compares the object's class against the installer's
class. -/
def Installer.instanceOf (inst : Installer) (o : JSObject) : Bool :=
  o.classId == inst.classId

/-- Model of the prototype identity check `fromContext(cx)._proto == obj`
(source line 260): object identity against the installer's cached
prototype. -/
def Installer.isPrototype (inst : Installer) (o : JSObject) : Bool :=
  o.id == inst.protoId

/-- The installer produced by installing a type with class id `cid`,
whose prototype object got identity `pid`. -/
def installType (cid pid : Nat) : Installer :=
  ⟨cid, pid⟩

/-- The prototype object created by `JS_InitClass` for the installed
type: an object of the class, with identity `pid` and an empty private
slot (the source comment at lines 224-227 notes the prototype only holds
a nullptr private value). -/
def protoObject (cid pid : Nat) : JSObject :=
  ⟨pid, cid, none⟩

/-- The failure kinds of the spec's error model (section 7).  The C++
source distinguishes them by the message of the `std::runtime_error` it
throws; the embedding carries the kind alongside the message. -/
inductive JSErrKind where
  | NotAnObject
  | WrongType
  | CalledOnPrototype
  | SlotAlreadyOccupied
  | SlotEmpty
  | DuplicateInstallation
  | ConstructionFailed
  | NativeFailure
deriving DecidableEq

/-- What a SpiderMonkey callback invocation produces, as seen by the
engine: the `bool` the callback returned, the pending runtime exception
set through `cppToJSException` (source line 237) when it returned false,
and the return value written to `args.rval()` when it succeeded. -/
structure CallOutcome where
  ok : Bool
  pendingErr : Option (JSErrKind × String)
  rval : Option JSValue
deriving DecidableEq

/-- The outcome of a callback that failed: `cppToJSException` converted
the native exception into a pending runtime error and the callback
returned false to the engine. -/
def errOutcome (k : JSErrKind) (msg : String) : CallOutcome :=
  ⟨false, some (k, msg), none⟩

/-- A native body (`T::call` in the source) is modelled by its outcome:
either it completes and leaves a value in `args.rval()`, or it throws a
native exception. -/
abbrev NativeBody : Type :=
  Except (JSErrKind × String) JSValue

/-- Model of `wrapFunction` (source lines 309-321): run `T::call` inside
try/catch; a completed body yields `true` with its rval, any thrown
exception is translated by `cppToJSException` and the callback returns
`false`. -/
def wrapFunction (body : NativeBody) : CallOutcome :=
  match body with
  | .ok v => ⟨true, none, some v⟩
  | .error e => ⟨false, some e, none⟩

/-- Model of the helper `instanceOf<T, Args...>` declared at source
lines 340-349 (implementation elided there; modelled from its comment):
given the receiver value, returns the pair (the receiver is an instance
of one of the given types, the receiver is the prototype of one of the
given types). -/
def instanceOfMulti (insts : List Installer) (v : JSValue) : Bool × Bool :=
  match v with
  | .obj o => (insts.any fun i => i.instanceOf o,
               insts.any fun i => i.isPrototype o)
  | _ => (false, false)

/-- Model of `wrapConstrainedMethod<T, noProto, Args...>` (source lines
352-390): inside try/catch, check that the receiver is an object, then
that it is of one of the allowed types, then (when `noProto`) that it is
not a prototype; each failing check throws, the catch clause translates
the exception and returns false; only when every check passes does the
wrapped native body run, under the same catch clause. -/
def wrapConstrainedMethod (T : String) (noProto : Bool)
    (insts : List Installer) (body : NativeBody) (thisv : JSValue) :
    CallOutcome :=
  if thisv.isObject = false then
    errOutcome .NotAnObject (T ++ " can only be called on objects")
  else
    let p := instanceOfMulti insts thisv
    if p.1 = false then
      errOutcome .WrongType
        (T ++ " can only be called on objects of the correct type")
    else if noProto && p.2 then
      errOutcome .CalledOnPrototype (T ++ " cannot be called on the prototype")
    else
      wrapFunction body

/-- Model of the robust `toNumber` (source lines 239-276): object-ness
check, `instanceOf` check, prototype identity check, in that order, each
failure translated by the catch clause; on success it reads the private
slot and returns the stored value.  An empty slot after all checks pass
would be a null dereference in the source, modelled as `none`; the
numeric result models `ptr->val` itself (the precision of the
`static_cast<double>` is outside these claims). -/
def toNumberRobust (inst : Installer) (thisv : JSValue) :
    Option CallOutcome :=
  match thisv with
  | .obj o =>
    if inst.instanceOf o = false then
      some (errOutcome .WrongType
        "MyType::toNumber can only be called on objects of type MyType")
    else if inst.isPrototype o then
      some (errOutcome .CalledOnPrototype
        "MyType::toNumber can\x27t be called on the prototype")
    else
      o.slot.map fun ptr => ⟨true, none, some (.number ptr.val)⟩
  | _ =>
    some (errOutcome .NotAnObject
      "MyType::toNumber can only be called on objects")

/-- Model of the C "C"-locale `isspace` used by `atoll` to skip leading
whitespace: space, tab, newline, vertical tab, form feed, carriage
return. -/
def isSpaceCh (c : Char) : Bool :=
  c = ' ' || c = '\t' || c = '\n' || c.toNat = 11 || c.toNat = 12 || c = '\r'

/-- A decimal digit character, as `atoll` recognizes them. -/
def isDigitCh (c : Char) : Bool :=
  48 ≤ c.toNat && c.toNat ≤ 57

/-- The character for the decimal digit `d`. -/
def digitChar (d : Nat) : Char :=
  Char.ofNat (48 + d)

/-- The digit-accumulation loop of `atoll`: consume leading decimal
digits, accumulating `10 * acc + digit`; stop at the first non-digit. -/
def parseDigitsAcc (acc : Nat) : List Char → Nat
  | [] => acc
  | c :: cs =>
    if isDigitCh c then parseDigitsAcc (10 * acc + (c.toNat - 48)) cs else acc

/-- Model of `std::atoll` (source line 162) on a character list: skip
leading whitespace, read an optional sign, then consume leading decimal
digits; when no digits can be consumed the result is 0.  The result is
an unbounded `Int`; it agrees with the C function whenever the value is
representable in long long (beyond that the C function's behaviour is
undefined). -/
def atollChars (cs : List Char) : Int :=
  match cs.dropWhile isSpaceCh with
  | [] => 0
  | c :: rest =>
    if c = '-' then -(parseDigitsAcc 0 rest : Int)
    else if c = '+' then (parseDigitsAcc 0 rest : Int)
    else (parseDigitsAcc 0 (c :: rest) : Int)

/-- `std::atoll` on a string. -/
def atoll (s : String) : Int :=
  atollChars s.data

/-- The little-endian decimal digits of `n`, with explicit structural
fuel (any fuel at least `n` gives the digits of `n`). -/
def natToRevDigitsF : Nat → Nat → List Nat
  | 0, _ => []
  | f + 1, n => if n = 0 then [] else n % 10 :: natToRevDigitsF f (n / 10)

/-- Decimal representation of a natural number, most significant digit
first, with "0" for zero; the natural-number half of `std::to_string`. -/
def natToString (n : Nat) : String :=
  if n = 0 then "0"
  else ⟨((natToRevDigitsF n n).reverse.map digitChar)⟩

/-- Model of `std::to_string` on an int64_t value (source line 195):
minus sign for negative values followed by the decimal digits of the
magnitude, no leading zeros, no leading plus. -/
def int64ToString (v : Int) : String :=
  if v < 0 then "-" ++ natToString v.natAbs else natToString v.natAbs

/-- Model of `AdaptedMyType::finalize` (source lines 138-146): read the
private slot; if it is null do nothing, otherwise delete the stored
payload.  The result is the list of payloads the call released, so that
"releases exactly the stored payload and nothing else" is the statement
that the list is exactly the slot's content.  The function is total: an
empty slot is a no-op, never a failure. -/
def finalize (obj : JSObject) : List MyType :=
  match obj.slot with
  | none => []
  | some ptr => [ptr]

/-- Model of `AdaptedMyType::construct` (source lines 151-173): convert
the first argument to a byte string, parse it with `atoll`, allocate a
`MyType` holding the parsed value, create a fresh object of the class
(`newObject`, whose private slot starts empty) and store the payload in
its private slot with `JS_SetPrivate`; the callback then returns true.
`freshId` is the identity of the newly created object. -/
def construct (inst : Installer) (arg : String) (freshId : Nat) :
    JSObject × Bool :=
  let v : Int := atoll arg
  let out : JSObject := ⟨freshId, inst.classId, some ⟨v⟩⟩
  (out, true)

/-- Model of `AdaptedMyType::toString` (source lines 188-201): read the
payload pointer from the private slot and return `std::to_string` of its
value as a runtime string.  An empty slot would be a null dereference in
the source, modelled as `none`. -/
def toStringMethod (obj : JSObject) : Option String :=
  obj.slot.map fun ptr => int64ToString ptr.val

/-- Modelled from the spec: the payload accessor `getPayload` exposed by
the Type Installer (spec sections 4.3 and 6); the generic installer
`WrapType` is only declared in the source (lines 554-576), its
implementation is elided.  Reads the private slot. -/
def getPayload (obj : JSObject) : Option MyType :=
  obj.slot

/-- Modelled from the spec: the payload attachment operation
`attachPayload` of the Type Installer (spec section 4.3); the generic
installer `WrapType` is only declared in the source, its implementation
is elided.  Per the spec it fails with `SlotAlreadyOccupied` when the
object already has a payload, leaving the object unchanged; otherwise it
stores the payload.  Returns the object after the call together with
the failure, if any. -/
def attachPayload (obj : JSObject) (p : MyType) :
    JSObject × Option JSErrKind :=
  match obj.slot with
  | some _ => (obj, some .SlotAlreadyOccupied)
  | none => (⟨obj.id, obj.classId, some p⟩, none)

/-- The script-observable object graph of a context: the objects script
can reach, plus the next fresh object identity. -/
structure Ctx where
  objects : List JSObject
  nextId : Nat
deriving DecidableEq

/-- Modelled from the spec: `WrapType::newInstance` (declared at source
lines 567-569, implementation elided): create a fresh object of the
class with an empty slot, then run the descriptor's construct hook on
it; if the hook fails, the partially built object is discarded (never
added to the script-observable graph) and the failure is propagated;
otherwise the populated object becomes observable and is returned. -/
def newInstance (ctx : Ctx) (cid : Nat)
    (hook : JSObject → Except (JSErrKind × String) JSObject) :
    Ctx × Except (JSErrKind × String) JSObject :=
  let fresh : JSObject := ⟨ctx.nextId, cid, none⟩
  match hook fresh with
  | .error e => (ctx, .error e)
  | .ok out => (⟨out :: ctx.objects, ctx.nextId + 1⟩, .ok out)


/-! ### Helper lemmas about the decimal parse/print models -/

theorem digitChar_props (d : Nat) (h : d < 10) :
    isDigitCh (digitChar d) = true ∧ (digitChar d).toNat - 48 = d ∧
    isSpaceCh (digitChar d) = false ∧
    digitChar d ≠ '-' ∧ digitChar d ≠ '+' := by
  interval_cases d <;> exact ⟨by decide, by decide, by decide, by decide, by decide⟩

theorem parseDigitsAcc_map (l : List Nat) (h : ∀ d ∈ l, d < 10) :
    ∀ acc : Nat,
      parseDigitsAcc acc (l.map digitChar) =
        l.foldl (fun a d => 10 * a + d) acc := by
  induction l with
  | nil => intro acc; rfl
  | cons d rest ih =>
    intro acc
    have hd : d < 10 := h d (List.mem_cons_self d rest)
    obtain ⟨h1, h2, -, -, -⟩ := digitChar_props d hd
    simp only [List.map_cons, parseDigitsAcc, h1, if_true, h2, List.foldl_cons]
    exact ih (fun x hx => h x (List.mem_cons_of_mem d hx)) _

theorem natToRevDigitsF_lt (f n : Nat) :
    ∀ d ∈ natToRevDigitsF f n, d < 10 := by
  induction f generalizing n with
  | zero => intro d hd; simp [natToRevDigitsF] at hd
  | succ f ih =>
    intro d hd
    by_cases h0 : n = 0
    · simp [natToRevDigitsF, h0] at hd
    · simp only [natToRevDigitsF, h0, if_false, List.mem_cons] at hd
      rcases hd with h | h
      · omega
      · exact ih (n / 10) d h

theorem foldr_natToRevDigitsF (f : Nat) :
    ∀ n : Nat, n ≤ f →
      (natToRevDigitsF f n).foldr (fun d a => 10 * a + d) 0 = n := by
  induction f with
  | zero => intro n h; interval_cases n; rfl
  | succ f ih =>
    intro n h
    by_cases h0 : n = 0
    · simp [natToRevDigitsF, h0]
    · simp only [natToRevDigitsF, h0, if_false, List.foldr_cons]
      have hle : n / 10 ≤ f := by omega
      rw [ih (n / 10) hle]
      omega

theorem parseDigitsAcc_msb (n : Nat) :
    parseDigitsAcc 0 ((natToRevDigitsF n n).reverse.map digitChar) = n := by
  rw [parseDigitsAcc_map ((natToRevDigitsF n n).reverse)
        (fun d hd => natToRevDigitsF_lt n n d (List.mem_reverse.mp hd)) 0]
  simp only [List.foldl_reverse]
  exact foldr_natToRevDigitsF n n (Nat.le_refl n)

theorem atollChars_cons_nonsign (c : Char) (cs : List Char)
    (h3 : isSpaceCh c = false) (h4 : c ≠ '-') (h5 : c ≠ '+') :
    atollChars (c :: cs) = (parseDigitsAcc 0 (c :: cs) : Int) := by
  simp only [atollChars, List.dropWhile_cons, h3, Bool.false_eq_true,
    if_false, h4, h5]

theorem atollChars_cons_minus (cs : List Char) :
    atollChars ('-' :: cs) = -(parseDigitsAcc 0 cs : Int) := by
  have h3 : isSpaceCh '-' = false := by decide
  simp only [atollChars, List.dropWhile_cons, h3, Bool.false_eq_true,
    if_false, if_true]

theorem natToString_data (n : Nat) (h0 : n ≠ 0) :
    (natToString n).data = (natToRevDigitsF n n).reverse.map digitChar := by
  simp only [natToString, h0, if_false]

theorem natToString_shape (n : Nat) (h0 : n ≠ 0) :
    ∃ d rest, d < 10 ∧
      (natToString n).data = digitChar d :: rest := by
  have hne : natToRevDigitsF n n ≠ [] := by
    match hn : n, h0 with
    | m + 1, _ => simp [natToRevDigitsF]
  have hne2 : (natToRevDigitsF n n).reverse ≠ [] := by
    simpa using hne
  rw [natToString_data n h0]
  match hl : (natToRevDigitsF n n).reverse, hne2 with
  | d :: rest, _ =>
    refine ⟨d, rest.map digitChar, ?_, by simp⟩
    exact natToRevDigitsF_lt n n d
      (List.mem_reverse.mp (hl ▸ List.mem_cons_self d rest))

theorem atoll_natToString (n : Nat) : atollChars (natToString n).data = n := by
  by_cases h0 : n = 0
  · subst h0; decide
  · obtain ⟨d, rest, hd, hshape⟩ := natToString_shape n h0
    obtain ⟨-, -, h3, h4, h5⟩ := digitChar_props d hd
    rw [hshape, atollChars_cons_nonsign (digitChar d) rest h3 h4 h5, ← hshape,
      natToString_data n h0, parseDigitsAcc_msb n]

theorem atoll_int64ToString (v : Int) : atoll (int64ToString v) = v := by
  by_cases hv : v < 0
  · have hne : v.natAbs ≠ 0 := by omega
    have hdat : ("-" ++ natToString v.natAbs).data
        = '-' :: (natToString v.natAbs).data := by
      cases hs : natToString v.natAbs with
      | mk l => rfl
    simp only [atoll, int64ToString, hv, if_true, hdat,
      atollChars_cons_minus]
    rw [natToString_data v.natAbs hne, parseDigitsAcc_msb v.natAbs]
    omega
  · simp only [atoll, int64ToString, hv, if_false]
    rw [atoll_natToString v.natAbs]
    omega

/-! ### Claim theorems -/

/-- C1: For every constrained method entry point (the generic
`wrapConstrainedMethod` and the hand-written robust `toNumber`), the
receiver checks run in the fixed order (1) receiver is an object,
(2) receiver is an instance of one of the allowed types, (3) if the
prototype-exclusion flag is set, receiver is not the prototype of a
matched type; any failing check short-circuits: in each failing case the
outcome is a fixed error outcome that is the same for every possible
native body, so the wrapped body is never invoked after a failed
check. -/
theorem c1_check_order (T : String) (noProto : Bool)
    (insts : List Installer) (body : NativeBody) (thisv : JSValue)
    (inst : Installer) :
    (thisv.isObject = false →
      wrapConstrainedMethod T noProto insts body thisv =
        errOutcome .NotAnObject (T ++ " can only be called on objects")) /\
    (thisv.isObject = true → (instanceOfMulti insts thisv).1 = false →
      wrapConstrainedMethod T noProto insts body thisv =
        errOutcome .WrongType
          (T ++ " can only be called on objects of the correct type")) /\
    ((instanceOfMulti insts thisv).1 = true → noProto = true →
      (instanceOfMulti insts thisv).2 = true →
      wrapConstrainedMethod T noProto insts body thisv =
        errOutcome .CalledOnPrototype
          (T ++ " cannot be called on the prototype")) /\
    (thisv.isObject = false →
      toNumberRobust inst thisv =
        some (errOutcome .NotAnObject
          "MyType::toNumber can only be called on objects")) /\
    (∀ o : JSObject, thisv = .obj o → inst.instanceOf o = false →
      toNumberRobust inst thisv =
        some (errOutcome .WrongType
          "MyType::toNumber can only be called on objects of type MyType")) /\
    (∀ o : JSObject, thisv = .obj o → inst.instanceOf o = true →
      inst.isPrototype o = true →
      toNumberRobust inst thisv =
        some (errOutcome .CalledOnPrototype
          "MyType::toNumber can\x27t be called on the prototype")) := by
  refine ⟨?_, ?_, ?_, ?_, ?_, ?_⟩
  · intro h
    simp [wrapConstrainedMethod, h]
  · intro h1 h2
    simp [wrapConstrainedMethod, h1, h2]
  · intro h1 h2 h3
    cases thisv <;> simp [instanceOfMulti] at h1 h3 <;>
      simp [wrapConstrainedMethod, JSValue.isObject, instanceOfMulti,
        h1, h2, h3]
  · intro h
    cases thisv <;> simp [JSValue.isObject] at h <;> rfl
  · intro o heq h
    subst heq
    simp [toNumberRobust, h]
  · intro o heq h1 h2
    subst heq
    simp [toNumberRobust, h1, h2]

theorem c1_check_order_witness :
    wrapConstrainedMethod "toNumber" true [installType 1 2]
        (Except.ok JSValue.undefined) (JSValue.number 5) =
      errOutcome .NotAnObject "toNumber can only be called on objects" /\
    wrapConstrainedMethod "toNumber" true [installType 1 2]
        (Except.ok JSValue.undefined) (JSValue.obj ⟨7, 9, none⟩) =
      errOutcome .WrongType
        "toNumber can only be called on objects of the correct type" /\
    wrapConstrainedMethod "toNumber" true [installType 1 2]
        (Except.ok JSValue.undefined) (JSValue.obj (protoObject 1 2)) =
      errOutcome .CalledOnPrototype
        "toNumber cannot be called on the prototype" :=
  ⟨(c1_check_order "toNumber" true [installType 1 2]
      (Except.ok JSValue.undefined) (JSValue.number 5) (installType 1 2)).1
      rfl,
   (c1_check_order "toNumber" true [installType 1 2]
      (Except.ok JSValue.undefined) (JSValue.obj ⟨7, 9, none⟩)
      (installType 1 2)).2.1 rfl (by decide),
   (c1_check_order "toNumber" true [installType 1 2]
      (Except.ok JSValue.undefined) (JSValue.obj (protoObject 1 2))
      (installType 1 2)).2.2.1 (by decide) rfl (by decide)⟩

/-- C2: every failure a wrapped native body raises is caught at the
`wrapFunction` adapter boundary, converted into the runtime's pending
error value, and reported to the engine as non-fatal failure (the
callback returns `false`); the failure never escapes the adapter (the
adapter is a total function into engine outcomes, and a failed outcome
always carries a pending error), and a body that completes is reported
as success with the body's result. -/
theorem c2_adapter_boundary (body : NativeBody) :
    (∀ e, body = Except.error e →
      wrapFunction body = ⟨false, some e, none⟩) /\
    (∀ v, body = Except.ok v →
      wrapFunction body = ⟨true, none, some v⟩) /\
    ((wrapFunction body).ok = false →
      (wrapFunction body).pendingErr ≠ none) := by
  refine ⟨?_, ?_, ?_⟩ <;> cases body <;> simp [wrapFunction]

theorem c2_adapter_boundary_witness :
    wrapFunction (Except.error (JSErrKind.NativeFailure, "boom")) =
      ⟨false, some (JSErrKind.NativeFailure, "boom"), none⟩ /\
    wrapFunction (Except.ok (JSValue.number 3)) =
      ⟨true, none, some (JSValue.number 3)⟩ :=
  ⟨(c2_adapter_boundary (Except.error (JSErrKind.NativeFailure, "boom"))).1
      (JSErrKind.NativeFailure, "boom") rfl,
   (c2_adapter_boundary (Except.ok (JSValue.number 3))).2.1
      (JSValue.number 3) rfl⟩

/-- C3: for the prototype object of any installed type, `instanceOf` is
true and `isPrototype` is true, and invoking any method bound with the
prototype-exclusion flag on that prototype fails with
`CalledOnPrototype`; the outcome is the same for every possible native
body, so the body is never entered and none of its side effects
occur. -/
theorem c3_prototype_excluded (cid pid : Nat) (T : String)
    (body : NativeBody) :
    (installType cid pid).instanceOf (protoObject cid pid) = true /\
    (installType cid pid).isPrototype (protoObject cid pid) = true /\
    wrapConstrainedMethod T true [installType cid pid] body
        (JSValue.obj (protoObject cid pid)) =
      errOutcome .CalledOnPrototype
        (T ++ " cannot be called on the prototype") := by
  refine ⟨by simp [installType, protoObject, Installer.instanceOf],
    by simp [installType, protoObject, Installer.isPrototype], ?_⟩
  simp [wrapConstrainedMethod, JSValue.isObject, instanceOfMulti,
    installType, protoObject, Installer.instanceOf, Installer.isPrototype]

/-- C4: a constrained method invoked with a receiver that is an object
of an installed type outside the allowed-type set fails with the
`WrongType` failure kind, and invoked with a non-object receiver fails
with the `NotAnObject` failure kind; in both cases the outcome is the
same for every possible native body, so the body is not invoked. -/
theorem c4_receiver_failures (T : String) (noProto : Bool)
    (insts : List Installer) (body : NativeBody) :
    (∀ o : JSObject, (∀ i ∈ insts, o.classId ≠ i.classId) →
      wrapConstrainedMethod T noProto insts body (JSValue.obj o) =
        errOutcome .WrongType
          (T ++ " can only be called on objects of the correct type")) /\
    (∀ v : JSValue, v.isObject = false →
      wrapConstrainedMethod T noProto insts body v =
        errOutcome .NotAnObject (T ++ " can only be called on objects")) := by
  constructor
  · intro o h
    have hfst : (instanceOfMulti insts (JSValue.obj o)).1 = false := by
      simp only [instanceOfMulti, List.any_eq_false]
      intro i hi
      simp only [Installer.instanceOf, beq_iff_eq]
      exact h i hi
    simp [wrapConstrainedMethod, JSValue.isObject, hfst]
  · intro v h
    simp [wrapConstrainedMethod, h]

theorem c4_receiver_failures_witness :
    wrapConstrainedMethod "toString" true [installType 1 2]
        (Except.ok JSValue.undefined) (JSValue.obj ⟨7, 9, none⟩) =
      errOutcome .WrongType
        "toString can only be called on objects of the correct type" /\
    wrapConstrainedMethod "toString" true [installType 1 2]
        (Except.ok JSValue.undefined) JSValue.undefined =
      errOutcome .NotAnObject "toString can only be called on objects" :=
  ⟨(c4_receiver_failures "toString" true [installType 1 2]
      (Except.ok JSValue.undefined)).1 ⟨7, 9, none⟩ (by decide),
   (c4_receiver_failures "toString" true [installType 1 2]
      (Except.ok JSValue.undefined)).2 JSValue.undefined rfl⟩

/-- C5: the descriptor's finalizer run on an object with an empty
private slot is a no-op that releases nothing and does not fail (the
model is a total function), and run on an object whose slot holds a
payload it releases exactly that payload and nothing else. -/
theorem c5_finalize_exact (i c : Nat) :
    finalize ⟨i, c, none⟩ = [] /\
    ∀ p : MyType, finalize ⟨i, c, some p⟩ = [p] :=
  ⟨rfl, fun _ => rfl⟩

/-- C6: for every in-range 64-bit signed integer value, constructing an
instance of the integer-wrapper type from the value's decimal string and
then calling the string accessor returns that string exactly; the path
is string → int64 → string, with no double involved, so no precision
is lost. -/
theorem c6_roundtrip (v : Int) (h1 : -(2 ^ 63) ≤ v) (h2 : v < 2 ^ 63)
    (cid pid fid : Nat) :
    (construct (installType cid pid) (int64ToString v) fid).2 = true /\
    toStringMethod
        (construct (installType cid pid) (int64ToString v) fid).1 =
      some (int64ToString v) := by
  refine ⟨rfl, ?_⟩
  simp [construct, toStringMethod, atoll_int64ToString]

theorem c6_roundtrip_witness :
    -(2 ^ 63) ≤ (9223372036854775807 : Int) /\
    (9223372036854775807 : Int) < 2 ^ 63 /\
    toStringMethod (construct (installType 0 1)
        (int64ToString 9223372036854775807) 2).1 =
      some (int64ToString 9223372036854775807) :=
  ⟨by decide, by decide,
   (c6_roundtrip 9223372036854775807 (by decide) (by decide) 0 1 2).2⟩

/-- C7: attaching a payload to an object that already holds one fails
with `SlotAlreadyOccupied`, and after the failed attempt the originally
attached payload is still the one `getPayload` returns: no replacement,
and the failed attach released nothing. -/
theorem c7_attach_occupied (o : JSObject) (p0 p1 : MyType)
    (h : o.slot = some p0) :
    (attachPayload o p1).2 = some JSErrKind.SlotAlreadyOccupied /\
    getPayload (attachPayload o p1).1 = some p0 := by
  simp [attachPayload, getPayload, h]

theorem c7_attach_occupied_witness :
    (attachPayload ⟨3, 1, some ⟨42⟩⟩ ⟨99⟩).2 =
      some JSErrKind.SlotAlreadyOccupied /\
    getPayload (attachPayload ⟨3, 1, some ⟨42⟩⟩ ⟨99⟩).1 = some ⟨42⟩ :=
  c7_attach_occupied ⟨3, 1, some ⟨42⟩⟩ ⟨42⟩ ⟨99⟩ rfl

/-- C8: when the construct hook fails during `newInstance`, the
partially built object is discarded (the script-observable object graph
is exactly what it was before the call) and the failure is propagated as
the call's result, so no object with an inconsistent private slot is
ever observable to script. -/
theorem c8_construct_failure (ctx : Ctx) (cid : Nat)
    (hook : JSObject → Except (JSErrKind × String) JSObject)
    (e : JSErrKind × String)
    (h : hook ⟨ctx.nextId, cid, none⟩ = Except.error e) :
    (newInstance ctx cid hook).1 = ctx /\
    (newInstance ctx cid hook).2 = Except.error e := by
  simp [newInstance, h]

theorem c8_construct_failure_witness :
    (newInstance ⟨[], 0⟩ 5
        (fun _ => Except.error (JSErrKind.ConstructionFailed, "bad"))).1 =
      (⟨[], 0⟩ : Ctx) /\
    (newInstance ⟨[], 0⟩ 5
        (fun _ => Except.error (JSErrKind.ConstructionFailed, "bad"))).2 =
      Except.error (JSErrKind.ConstructionFailed, "bad") :=
  c8_construct_failure ⟨[], 0⟩ 5
    (fun _ => Except.error (JSErrKind.ConstructionFailed, "bad"))
    (JSErrKind.ConstructionFailed, "bad") rfl

/-- C9: constructing the integer-wrapper type from a string whose
leading characters form no decimal number succeeds (the callback returns
true) and yields an instance whose stored payload value is 0, because
`atoll` returns 0 when no conversion can be performed. -/
theorem c9_construct_no_digits (cid pid fid : Nat) :
    atoll "abc" = 0 /\
    construct (installType cid pid) "abc" fid =
      (⟨fid, cid, some ⟨0⟩⟩, true) := by
  have h : atoll "abc" = 0 := by decide
  exact ⟨h, by simp [construct, installType, h]⟩

/-- C10: a constrained method bound with the prototype-exclusion flag
disabled accepts any receiver that passes the object-ness and
type-membership checks, including the matched type's own prototype: the
adapter then behaves exactly like the unconstrained adapter, invoking
the native body and relaying its outcome. -/
theorem c10_proto_allowed (T : String) (insts : List Installer)
    (body : NativeBody) (o : JSObject)
    (hType : (instanceOfMulti insts (JSValue.obj o)).1 = true) :
    wrapConstrainedMethod T false insts body (JSValue.obj o) =
      wrapFunction body := by
  simp [wrapConstrainedMethod, JSValue.isObject, hType]

theorem c10_proto_allowed_witness :
    (instanceOfMulti [installType 1 2]
        (JSValue.obj (protoObject 1 2))).2 = true /\
    wrapConstrainedMethod "toNumber" false [installType 1 2]
        (Except.ok (JSValue.number 7)) (JSValue.obj (protoObject 1 2)) =
      wrapFunction (Except.ok (JSValue.number 7)) :=
  ⟨by decide,
   c10_proto_allowed "toNumber" [installType 1 2]
     (Except.ok (JSValue.number 7)) (protoObject 1 2) (by decide)⟩

end SpiderMonkeyEmbedding
